import Mathlib

/-!
Verification of the booking core of the `brondau-front` restaurant
table-booking application.

Shallow embedding conventions:
* An instant (a JS `Date` in restaurant-local wall-clock time) is a natural
  number of minutes since an epoch midnight; its calendar day is `t / 1440`
  and its minutes-since-midnight (`getHours()*60 + getMinutes()`) is
  `t % 1440`.  `CountdownTimer` works in milliseconds and is embedded over
  `ℚ` with millisecond naturals.
* JS strings are Lean `String`s; `"HH:MM".split(':')` is embedded as a
  structural split of the character list (`splitOnChar`), and
  `Number`/`parseInt` on a digit string as `digitsToNat`.
* The JS `for (let time = start; time <= bound; time += 30)` loops are
  embedded as `List.range` enumerations producing the same sequence in the
  same order (`slotTimes`).
-/

/-- Embedding of JS `s.split(sep)` for a single-character separator,
as a structural recursion over the character list. -/
def splitOnChar (sep : Char) : List Char → List (List Char)
  | [] => [[]]
  | c :: rest =>
    let r := splitOnChar sep rest
    if c = sep then [] :: r
    else
      match r with
      | [] => [[c]]
      | g :: gs => (c :: g) :: gs

/-- Embedding of JS `Number(s)` / `parseInt(s)` on a string of decimal
digits (the only shapes reaching it in the booking core). -/
def digitsToNat (cs : List Char) : Nat :=
  cs.foldl (fun a c => a * 10 + (c.toNat - 48)) 0

/-- `parseTime` from `BookingModal.tsx` (identical copy in the time
utilities file): `split(':').map(Number)`, then `hours * 60 + minutes`. -/
def parseTime (timeStr : String) : Nat :=
  let parts := (splitOnChar ':' timeStr.toList).map digitsToNat
  parts.getD 0 0 * 60 + parts.getD 1 0

/-- Embedding of `String(n).padStart(2, '0')` for the hour/minute fields. -/
def pad2 (n : Nat) : String :=
  if n < 10 then "0" ++ toString n else toString n

/-- Slot-label formatting used by both `availableSlots` and
`generateTimeSlots`: `h = floor(time/60) % 24`, `m = time % 60`,
rendered as `"HH:MM"`. -/
def formatTime (time : Nat) : String :=
  pad2 (time / 60 % 24) ++ ":" ++ pad2 (time % 60)

/-- `BookingStatus` from `types.ts`. -/
inductive BookingStatus
  | PENDING
  | CONFIRMED
  | DECLINED
  | OCCUPIED
  | COMPLETED
deriving DecidableEq, Repr

/-- The fields of `Booking` (from `types.ts`) that the booking core reads.
`dateTime` and `createdAt` are instants in minutes / milliseconds as per
the embedding conventions; identity and display-only fields are defaulted. -/
structure Booking where
  tableId : Nat
  dateTime : Nat
  status : BookingStatus
  guestName : String := ""
  guestPhone : String := ""
  guestCount : Nat := 0
  createdAtMs : Nat := 0
deriving DecidableEq, Repr

/-- `isWithinWorkHours` from the time utilities: overnight window
(`endMins < startMins`, strict) accepts `timeMins >= startMins OR
timeMins < endMins`; otherwise `startMins <= timeMins < endMins`. -/
def isWithinWorkHours (time : Nat) (workStarts workEnds : String) : Bool :=
  let startMins := parseTime workStarts
  let endMins := parseTime workEnds
  let timeMins := time % 1440
  if endMins < startMins then
    decide (startMins ≤ timeMins) || decide (timeMins < endMins)
  else
    decide (startMins ≤ timeMins) && decide (timeMins < endMins)

/-- The arithmetic sequence emitted by
`for (let t = startMins; t < endMins; t += 30)`: all `startMins + 30*k`
strictly below `endMins`, in increasing order. -/
def slotTimes (startMins endMins : Nat) : List Nat :=
  (List.range ((endMins - startMins + 29) / 30)).map (fun k => startMins + 30 * k)

/-- `generateTimeSlots` from the time utilities: normalize `endMins` by
adding `24*60` when `endMins <= startMins` (overnight), then emit one
`"HH:MM"` label per 30-minute step from `startMins` to `endMins`
exclusive.  (The `interval` argument defaults to 30 in the source and is
only ever used at 30, so the enumeration is specialized to step 30.) -/
def generateTimeSlots (workStarts workEnds : String) : List String :=
  let startMins := parseTime workStarts
  let endMins0 := parseTime workEnds
  let endMins := if endMins0 ≤ startMins then endMins0 + 1440 else endMins0
  (slotTimes startMins endMins).map formatTime

/-- The booking filter of `availableSlots` (`BookingModal.tsx`,
`bookingsOnShift` then `bookingMinsList`): keep bookings of this table
with status CONFIRMED/OCCUPIED/PENDING whose `dateTime` lies in
`[shiftStart, shiftEnd)`, and convert each to minutes-of-day, adding
`24*60` when that time-of-day precedes `workStarts` (overnight
linearization). -/
def shiftBookingMins (workStarts workEnds : String) (tableId selectedDate : Nat)
    (bookings : List Booking) : List Nat :=
  let startMins := parseTime workStarts
  let endMins0 := parseTime workEnds
  let endMins := if endMins0 ≤ startMins then endMins0 + 1440 else endMins0
  let shiftStart := selectedDate * 1440 + startMins
  let shiftEnd := selectedDate * 1440 + endMins
  let bookingsOnShift := bookings.filter fun b =>
    decide (b.tableId = tableId) &&
    (decide (b.status = BookingStatus.CONFIRMED) || decide (b.status = BookingStatus.OCCUPIED) ||
      decide (b.status = BookingStatus.PENDING)) &&
    decide (shiftStart ≤ b.dateTime) && decide (b.dateTime < shiftEnd)
  bookingsOnShift.map fun b =>
    let bMins := b.dateTime % 1440
    if bMins < startMins then bMins + 1440 else bMins

/-- The slot enumeration and filtering loop of `availableSlots`
(`BookingModal.tsx`): candidates run from `startMins` while
`time <= endMins - 60` in 30-minute steps (`t <= e - 60` over the
integers is `t < e - 59` here); a candidate is dropped when the selected
date is today and it precedes `now + 15` minutes, or when it is within
60 minutes (strict, absolute difference) of an existing occupying
booking. -/
def availableSlotTimes (workStarts workEnds : String) (tableId selectedDate now : Nat)
    (bookings : List Booking) : List Nat :=
  let startMins := parseTime workStarts
  let endMins0 := parseTime workEnds
  let endMins := if endMins0 ≤ startMins then endMins0 + 1440 else endMins0
  let isToday := decide (selectedDate = now / 1440)
  let currentMins := now % 1440
  let minBookingMins := if selectedDate = now / 1440 then currentMins + 15 else 0
  let bookingMinsList := shiftBookingMins workStarts workEnds tableId selectedDate bookings
  (slotTimes startMins (endMins - 59)).filter fun time =>
    !(isToday && decide (time < minBookingMins)) &&
    !(bookingMinsList.any fun bm => decide (Nat.dist time bm < 60))

/-- `availableSlots` from `BookingModal.tsx` (the booking dialog's
conflict resolver): the filtered candidate times, formatted as `"HH:MM"`
labels in ascending order. -/
def availableSlots (workStarts workEnds : String) (tableId selectedDate now : Nat)
    (bookings : List Booking) : List String :=
  (availableSlotTimes workStarts workEnds tableId selectedDate now bookings).map formatTime

/-- The guest floor-plan classifier `tableStatuses` from `UserView.tsx`,
restricted to one table: `pending` when some PENDING booking of the table
has `dateTime > now`, else `confirmed` when some CONFIRMED/OCCUPIED
booking has `dateTime > now`, else `available`. -/
def userTableStatus (bookings : List Booking) (tableId now : Nat) : String :=
  let activePending := bookings.find? fun b =>
    decide (b.tableId = tableId) && decide (b.status = BookingStatus.PENDING) &&
      decide (now < b.dateTime)
  let activeConfirmed := bookings.find? fun b =>
    decide (b.tableId = tableId) &&
    (decide (b.status = BookingStatus.CONFIRMED) || decide (b.status = BookingStatus.OCCUPIED)) &&
      decide (now < b.dateTime)
  if activePending.isSome then "pending"
  else if activeConfirmed.isSome then "confirmed"
  else "available"

/-- The staff floor-map color logic from `AdminView.tsx`, as a status:
the source starts from green (`available`), paints red (`confirmed`)
when a due CONFIRMED/OCCUPIED booking exists (`currentBooking`, the
latest such after a descending sort — only its presence matters for the
color), overrides with yellow (`pending`) when a due PENDING booking
exists, and otherwise paints red when the earliest future occupying
booking (ascending sort then `[0]`, i.e. the minimal `dateTime`) starts
within 60 minutes of `now`. -/
def adminTableStatus (bookings : List Booking) (tableId now : Nat) : String :=
  let hasCurrent := bookings.any fun b =>
    decide (b.tableId = tableId) &&
    (decide (b.status = BookingStatus.CONFIRMED) || decide (b.status = BookingStatus.OCCUPIED)) &&
      decide (b.dateTime ≤ now)
  let isPending := bookings.any fun b =>
    decide (b.tableId = tableId) && decide (b.status = BookingStatus.PENDING) &&
      decide (b.dateTime ≤ now)
  if isPending then "pending"
  else if hasCurrent then "confirmed"
  else
    let upcoming := bookings.filter fun b =>
      decide (b.tableId = tableId) &&
      (decide (b.status = BookingStatus.CONFIRMED) || decide (b.status = BookingStatus.OCCUPIED) ||
        decide (b.status = BookingStatus.PENDING)) &&
      decide (now < b.dateTime)
    match (upcoming.map Booking.dateTime).min? with
    | some d => if d - now < 60 then "confirmed" else "available"
    | none => "available"

/-- Seconds elapsed since `createdAt`, from `CountdownTimer` in
`AdminView.tsx`: `(now.getTime() - createdAt.getTime()) / 1000`,
embedded over `ℚ` with instants in milliseconds. -/
def secondsElapsed (createdAtMs nowMs : Nat) : ℚ :=
  ((nowMs : ℚ) - (createdAtMs : ℚ)) / 1000

/-- The countdown value held by `CountdownTimer` (`AdminView.tsx`):
`Math.max(0, 180 - elapsed)`. -/
def countdownTimeLeft (createdAtMs nowMs : Nat) : ℚ :=
  max 0 (180 - secondsElapsed createdAtMs nowMs)

/-- The minutes digit rendered by `CountdownTimer`:
`Math.floor(timeLeft / 60)`. -/
def countdownMinutes (createdAtMs nowMs : Nat) : ℤ :=
  ⌊countdownTimeLeft createdAtMs nowMs / 60⌋

/-- The seconds digits rendered by `CountdownTimer`:
`Math.floor(timeLeft % 60)`; for the nonnegative operands occurring here
the JS `%` is `x - 60 * floor(x / 60)`. -/
def countdownSeconds (createdAtMs nowMs : Nat) : ℤ :=
  ⌊countdownTimeLeft createdAtMs nowMs -
    60 * (⌊countdownTimeLeft createdAtMs nowMs / 60⌋ : ℚ)⌋

/-- The `dateTime` constructed by `handleSubmit` (`BookingModal.tsx`):
midnight of the selected calendar day plus the slot's hours and minutes
(`setHours(h, m, 0, 0)`, with the JS rollover for `h ≥ 24` matching the
plain sum), then one day added when `h < parseInt(workStarts.split(':')[0])`
and `parseTime(bookingTime) < parseTime(workStarts)`. -/
def constructDateTime (bookingDate : Nat) (bookingTime workStarts : String) : Nat :=
  let parts := (splitOnChar ':' bookingTime.toList).map digitsToNat
  let h := parts.getD 0 0
  let m := parts.getD 1 0
  let base := bookingDate * 1440 + h * 60 + m
  let workStartH := digitsToNat ((splitOnChar ':' workStarts.toList).getD 0 [])
  if h < workStartH ∧ parseTime bookingTime < parseTime workStarts then base + 1440
  else base

/-- The validation failures surfaced by `handleSubmit` via `setError`. -/
inductive SubmitError
  | nameOrPhoneMissing
  | phoneInvalid
  | capacityExceeded
  | noSlotSelected
deriving DecidableEq, Repr

/-- `handleSubmit` from `BookingModal.tsx`, returning the surfaced
validation error (if any) together with the resulting booking set
(`addBooking` appends the new PENDING booking).  The guard order follows
the source: missing name/phone, phone not 11 digits
(`replace(/\D/g, '')`), `guestCount > table.seats`, no slot selected;
then the `window.confirm` warning when some occupying booking of the
table lies within 12 hours after the constructed `dateTime` (presence of
the sorted `[0]` element is what triggers the dialog), whose refusal
(`confirmOk = false`) aborts without error. -/
def handleSubmit (guestName guestPhone : String) (guestCount : Nat)
    (tableId seats : Nat) (bookingTime : String) (bookingDate : Nat)
    (workStarts : String) (bookings : List Booking) (confirmOk : Bool) :
    Option SubmitError × List Booking :=
  if guestName = "" ∨ guestPhone = "" then (some .nameOrPhoneMissing, bookings)
  else if (guestPhone.toList.filter Char.isDigit).length ≠ 11 then
    (some .phoneInvalid, bookings)
  else if guestCount > seats then (some .capacityExceeded, bookings)
  else if bookingTime = "" then (some .noSlotSelected, bookings)
  else
    let dateTime := constructDateTime bookingDate bookingTime workStarts
    let hasNext := bookings.any fun b =>
      decide (b.tableId = tableId) &&
      (decide (b.status = BookingStatus.CONFIRMED) || decide (b.status = BookingStatus.OCCUPIED) ||
        decide (b.status = BookingStatus.PENDING)) &&
      decide (dateTime < b.dateTime) && decide (b.dateTime - dateTime < 720)
    if hasNext && !confirmOk then (none, bookings)
    else
      let newBooking : Booking :=
        { tableId := tableId, dateTime := dateTime,
          status := BookingStatus.PENDING, guestName := guestName,
          guestPhone := guestPhone, guestCount := guestCount }
      (none, bookings ++ [newBooking])

/-- A string is a well-formed `"HH:MM"` clock time exactly when it is the
canonical rendering of some minutes-of-day value. -/
def ValidHHMM (s : String) : Prop :=
  ∃ h m, h < 24 ∧ m < 60 ∧ s = formatTime (h * 60 + m)

/-! ### Helper lemmas -/

/-- Membership in the 30-minute enumeration `slotTimes`. -/
theorem mem_slotTimes {s e t : Nat} :
    t ∈ slotTimes s e ↔ ∃ k, t = s + 30 * k ∧ t < e := by
  simp only [slotTimes, List.mem_map, List.mem_range]
  constructor
  · rintro ⟨k, hk, rfl⟩
    exact ⟨k, rfl, by omega⟩
  · rintro ⟨k, rfl, hk⟩
    exact ⟨k, by omega, rfl⟩

set_option maxRecDepth 40000 in
/-- Splitting a formatted `"HH:MM"` label at `':'` recovers the hour and
minute fields, stated over separate hour and minute bounds. -/
theorem split_formatTime_hm : ∀ h < 48, ∀ m < 60,
    (splitOnChar ':' (formatTime (h * 60 + m)).toList).map digitsToNat = [h % 24, m] := by
  decide

/-- Splitting a formatted `"HH:MM"` label at `':'` recovers the hour and
minute fields, for every minute value a slot enumeration can reach. -/
theorem split_formatTime : ∀ t < 2880,
    (splitOnChar ':' (formatTime t).toList).map digitsToNat = [t / 60 % 24, t % 60] := by
  intro t ht
  have h := split_formatTime_hm (t / 60) (by omega) (t % 60) (by omega)
  have e1 : t / 60 * 60 + t % 60 = t := by omega
  rw [e1] at h
  rw [h]

/-- `parseTime` is a left inverse of `formatTime` modulo one day. -/
theorem parseTime_formatTime {t : Nat} (ht : t < 2880) :
    parseTime (formatTime t) = t % 1440 := by
  have h := split_formatTime t ht
  simp only [parseTime, h, List.getD]
  simp
  omega

/-- The head of a two-element char-list split, through `digitsToNat`. -/
theorem digitsToNat_getD_zero {l : List (List Char)} {a b : Nat}
    (h : l.map digitsToNat = [a, b]) : digitsToNat (l.getD 0 []) = a := by
  match l with
  | [] => simp at h
  | [x] => simp at h
  | x :: y :: z :: zs => simp at h
  | [x, y] =>
    simp only [List.map_cons, List.map_nil, List.cons.injEq] at h
    simp [List.getD, h.1]

/-- A valid `"HH:MM"` string parses below one day of minutes. -/
theorem parseTime_of_valid {s : String} (h : ValidHHMM s) :
    parseTime s < 1440 := by
  obtain ⟨H, M, hH, hM, rfl⟩ := h
  rw [parseTime_formatTime (by omega)]
  omega

/-- Dropping a booking from the front of the booking list only shrinks the
occupied-minutes list used by the slot filter. -/
theorem shiftBookingMins_subset_cons (ws we : String) (tableId selectedDate : Nat)
    (b : Booking) (bookings : List Booking) :
    shiftBookingMins ws we tableId selectedDate bookings ⊆
      shiftBookingMins ws we tableId selectedDate (b :: bookings) := by
  intro m hm
  simp only [shiftBookingMins, List.mem_map, List.mem_filter] at hm ⊢
  obtain ⟨x, ⟨hx1, hx2⟩, hx3⟩ := hm
  exact ⟨x, ⟨List.mem_cons_of_mem _ hx1, hx2⟩, hx3⟩

/-! ### Claim theorems -/

/-- C1, counterexample: with `workStarts="10:00"`, `workEnds="23:00"` and a
single CONFIRMED booking at 19:00 of the selected date, the 18:00 slot is
*present* in the dialog's output (`|1080 - 1140| = 60` is not `< 60`),
refuting the claim that the blocked range is 18:00–20:00
inclusive-exclusive. -/
theorem C1_counterexample :
    "18:00" ∈ availableSlots "10:00" "23:00" 1 1 0
      [{ tableId := 1, dateTime := 1 * 1440 + 1140, status := BookingStatus.CONFIRMED }] := by
  decide

/-- C1, amended: a CONFIRMED booking at 19:00 blocks exactly the slots
strictly between 18:00 and 20:00 — 18:30, 19:00 and 19:30 — while 17:30,
18:00 and 20:00 (absolute difference ≥ 60) all remain in the output. -/
theorem C1_amended :
    availableSlots "10:00" "23:00" 1 1 0
      [{ tableId := 1, dateTime := 1 * 1440 + 1140, status := BookingStatus.CONFIRMED }] =
    ["10:00", "10:30", "11:00", "11:30", "12:00", "12:30", "13:00", "13:30",
     "14:00", "14:30", "15:00", "15:30", "16:00", "16:30", "17:00", "17:30",
     "18:00", "20:00", "20:30", "21:00", "21:30", "22:00"] := by
  decide

/-- C2: for the overnight pair `workStarts="22:00"`, `workEnds="02:00"`,
no existing bookings, and `now` at 20:00 of the selected date, the dialog
offers exactly the 30-minute slots 22:00 through 01:00 — the `endMins-60`
cutoff at linearized minute 1500 makes 01:00 the last slot and excludes
01:30. -/
theorem C2_slots :
    availableSlots "22:00" "02:00" 1 0 1200 [] =
      ["22:00", "22:30", "23:00", "23:30", "00:00", "00:30", "01:00"] := by
  decide

/-- C3, counterexample: for a table whose only booking is CONFIRMED 120
minutes in the future, the guest view classifies the table `confirmed`
while the staff floor map renders it `available` — the two views do not
compute the same status. -/
theorem C3_counterexample :
    userTableStatus [{ tableId := 1, dateTime := 1120, status := BookingStatus.CONFIRMED }] 1 1000
      = "confirmed" ∧
    adminTableStatus [{ tableId := 1, dateTime := 1120, status := BookingStatus.CONFIRMED }] 1 1000
      = "available" ∧
    userTableStatus [{ tableId := 1, dateTime := 1120, status := BookingStatus.CONFIRMED }] 1 1000
      ≠ adminTableStatus [{ tableId := 1, dateTime := 1120, status := BookingStatus.CONFIRMED }]
          1 1000 := by
  refine ⟨by decide, by decide, by decide⟩

/-- C3, amended: the guest view (future-booking rule) and the staff floor
map (due-booking rule plus 60-minute look-ahead) classify with different
rules and can disagree; they do agree on every table that has no
bookings, where both report `available`. -/
theorem C3_amended (bookings : List Booking) (tableId now : Nat)
    (h : ∀ b ∈ bookings, b.tableId ≠ tableId) :
    userTableStatus bookings tableId now = "available" ∧
    adminTableStatus bookings tableId now = "available" := by
  constructor
  · unfold userTableStatus
    have h1 : (bookings.find? fun b =>
        decide (b.tableId = tableId) && decide (b.status = BookingStatus.PENDING) &&
          decide (now < b.dateTime)) = none := by
      rw [List.find?_eq_none]
      intro b hb
      simp [h b hb]
    have h2 : (bookings.find? fun b =>
        decide (b.tableId = tableId) &&
        (decide (b.status = BookingStatus.CONFIRMED) || decide (b.status = BookingStatus.OCCUPIED)) &&
          decide (now < b.dateTime)) = none := by
      rw [List.find?_eq_none]
      intro b hb
      simp [h b hb]
    simp [h1, h2]
  · unfold adminTableStatus
    have h1 : (bookings.any fun b =>
        decide (b.tableId = tableId) &&
        (decide (b.status = BookingStatus.CONFIRMED) || decide (b.status = BookingStatus.OCCUPIED)) &&
          decide (b.dateTime ≤ now)) = false := by
      rw [List.any_eq_false]
      intro b hb
      simp [h b hb]
    have h2 : (bookings.any fun b =>
        decide (b.tableId = tableId) && decide (b.status = BookingStatus.PENDING) &&
          decide (b.dateTime ≤ now)) = false := by
      rw [List.any_eq_false]
      intro b hb
      simp [h b hb]
    have h3 : (bookings.filter fun b =>
        decide (b.tableId = tableId) &&
        (decide (b.status = BookingStatus.CONFIRMED) || decide (b.status = BookingStatus.OCCUPIED) ||
          decide (b.status = BookingStatus.PENDING)) &&
        decide (now < b.dateTime)) = [] := by
      rw [List.filter_eq_nil_iff]
      intro b hb
      simp [h b hb]
    simp [h1, h2, h3]

/-- C3, witness: both classifiers evaluate to `available` on a table with
no bookings of its own. -/
theorem C3_witness :
    (∀ b ∈ [{ tableId := 2, dateTime := 500, status := BookingStatus.CONFIRMED : Booking }],
       b.tableId ≠ 1) ∧
    userTableStatus [{ tableId := 2, dateTime := 500, status := BookingStatus.CONFIRMED }] 1 700
      = "available" ∧
    adminTableStatus [{ tableId := 2, dateTime := 500, status := BookingStatus.CONFIRMED }] 1 700
      = "available" :=
  ⟨by decide, C3_amended _ 1 700 (by decide)⟩

/-- C4: adding a CONFIRMED booking to the input set never adds a slot to
the dialog's output — the new output is a subset of the old one. -/
theorem C4_mono (ws we : String) (tableId selectedDate now : Nat)
    (bookings : List Booking) (b : Booking)
    (hb : b.status = BookingStatus.CONFIRMED) :
    ∀ s ∈ availableSlots ws we tableId selectedDate now (b :: bookings),
      s ∈ availableSlots ws we tableId selectedDate now bookings := by
  intro s hs
  simp only [availableSlots, List.mem_map] at hs ⊢
  obtain ⟨t, ht, rfl⟩ := hs
  refine ⟨t, ?_, rfl⟩
  simp only [availableSlotTimes, List.mem_filter] at ht ⊢
  refine ⟨ht.1, ?_⟩
  have h2 := ht.2
  simp only [Bool.and_eq_true, Bool.not_eq_true', List.any_eq_false,
    decide_eq_true_eq] at h2 ⊢
  obtain ⟨ha, hbk⟩ := h2
  refine ⟨ha, ?_⟩
  intro bm hbm
  exact hbk bm (shiftBookingMins_subset_cons ws we tableId selectedDate b bookings hbm)

/-- C4, witness: at the C1 configuration, the 10:00 slot offered after
adding the 19:00 CONFIRMED booking was already offered without it. -/
theorem C4_witness :
    ({ tableId := 1, dateTime := 1 * 1440 + 1140,
       status := BookingStatus.CONFIRMED : Booking }).status = BookingStatus.CONFIRMED ∧
    "10:00" ∈ availableSlots "10:00" "23:00" 1 1 0
      [{ tableId := 1, dateTime := 1 * 1440 + 1140, status := BookingStatus.CONFIRMED }] ∧
    "10:00" ∈ availableSlots "10:00" "23:00" 1 1 0 [] :=
  ⟨rfl, by decide,
    C4_mono "10:00" "23:00" 1 1 0 []
      { tableId := 1, dateTime := 1 * 1440 + 1140, status := BookingStatus.CONFIRMED }
      rfl "10:00" (by decide)⟩

/-- C5: a table with a CONFIRMED booking at `now + 45` minutes (inside the
60-minute look-ahead) and no booking due at or before `now` is rendered
`confirmed` by the staff floor map, not `available`. -/
theorem C5_lookahead (bookings : List Booking) (tableId now : Nat)
    (hfuture : ∀ b ∈ bookings, b.tableId = tableId → now < b.dateTime)
    (b0 : Booking) (hmem : b0 ∈ bookings) (h0 : b0.tableId = tableId)
    (hst : b0.status = BookingStatus.CONFIRMED) (hdt : b0.dateTime = now + 45) :
    adminTableStatus bookings tableId now = "confirmed" := by
  unfold adminTableStatus
  have hcur : (bookings.any fun b =>
      decide (b.tableId = tableId) &&
      (decide (b.status = BookingStatus.CONFIRMED) || decide (b.status = BookingStatus.OCCUPIED)) &&
        decide (b.dateTime ≤ now)) = false := by
    rw [List.any_eq_false]
    intro b hb
    by_cases htid : b.tableId = tableId
    · have := hfuture b hb htid
      simp [htid]
      omega
    · simp [htid]
  have hpend : (bookings.any fun b =>
      decide (b.tableId = tableId) && decide (b.status = BookingStatus.PENDING) &&
        decide (b.dateTime ≤ now)) = false := by
    rw [List.any_eq_false]
    intro b hb
    by_cases htid : b.tableId = tableId
    · have := hfuture b hb htid
      simp [htid]
      omega
    · simp [htid]
  rw [hcur, hpend]
  simp only [Bool.false_eq_true, if_false]
  have hmem2 : b0.dateTime ∈ ((bookings.filter fun b =>
      decide (b.tableId = tableId) &&
      (decide (b.status = BookingStatus.CONFIRMED) || decide (b.status = BookingStatus.OCCUPIED) ||
        decide (b.status = BookingStatus.PENDING)) &&
      decide (now < b.dateTime)).map Booking.dateTime) := by
    simp only [List.mem_map, List.mem_filter]
    refine ⟨b0, ⟨hmem, ?_⟩, rfl⟩
    simp [h0, hst, hdt]
  obtain ⟨d, hd⟩ : ∃ d, ((bookings.filter fun b =>
      decide (b.tableId = tableId) &&
      (decide (b.status = BookingStatus.CONFIRMED) || decide (b.status = BookingStatus.OCCUPIED) ||
        decide (b.status = BookingStatus.PENDING)) &&
      decide (now < b.dateTime)).map Booking.dateTime).min? = some d := by
    cases hcase : ((bookings.filter _).map Booking.dateTime).min? with
    | none =>
      rw [List.min?_eq_none_iff] at hcase
      rw [hcase] at hmem2
      exact absurd hmem2 (List.not_mem_nil _)
    | some d => exact ⟨d, rfl⟩
  rw [hd]
  have hle : d ≤ b0.dateTime := by
    rw [List.min?_eq_some_iff (fun a => le_refl a) (fun a b => min_choice a b)
      (fun a b c => le_min_iff)] at hd
    exact hd.2 _ hmem2
  have hlt : d - now < 60 := by omega
  simp [hlt]

/-- C5, witness: a single CONFIRMED booking 45 minutes ahead yields
`confirmed` on the staff floor map. -/
theorem C5_witness :
    (∀ b ∈ [{ tableId := 1, dateTime := 1045, status := BookingStatus.CONFIRMED : Booking }],
        b.tableId = 1 → 1000 < b.dateTime) ∧
    adminTableStatus [{ tableId := 1, dateTime := 1045, status := BookingStatus.CONFIRMED }]
        1 1000 = "confirmed" :=
  ⟨by decide, C5_lookahead _ 1 1000 (by decide)
      { tableId := 1, dateTime := 1045, status := BookingStatus.CONFIRMED }
      (List.mem_singleton_self _) rfl rfl rfl⟩

/-- C6, counterexample: the pair `workStarts = workEnds = "10:00"` is
overnight by the claim's `workEnds <= workStarts` test and
`generateTimeSlots` emits a full day of slots for it (including
`"10:00"`), yet `isWithinWorkHours` — whose overnight branch requires
the *strict* `endMins < startMins` — returns `false` at an instant with
exactly that wall-clock time. -/
theorem C6_counterexample :
    parseTime "10:00" ≤ parseTime "10:00" ∧
    "10:00" ∈ generateTimeSlots "10:00" "10:00" ∧
    (600 : Nat) % 1440 = parseTime "10:00" ∧
    isWithinWorkHours 600 "10:00" "10:00" = false := by
  refine ⟨by decide, by decide, by decide, by decide⟩

/-- C6, amended: for every overnight pair (`workEnds <= workStarts`) of
valid `"HH:MM"` strings, each generated slot label lies — as minutes of
an effective day, adding 1440 when the label wrapped past `workStarts` —
within `[workStarts, workEnds + 1440)`; and for *strictly* overnight
pairs (`workEnds < workStarts`) `isWithinWorkHours` returns `true` at
every instant carrying a generated slot's wall-clock time (at
`workEnds = workStarts` it is `false` for every instant). -/
theorem C6_amended (ws we : String) (hws : ValidHHMM ws) (hwe : ValidHHMM we)
    (hover : parseTime we ≤ parseTime ws) :
    (∀ l ∈ generateTimeSlots ws we,
       parseTime ws ≤ (if parseTime l < parseTime ws then parseTime l + 1440 else parseTime l) ∧
       (if parseTime l < parseTime ws then parseTime l + 1440 else parseTime l)
         < parseTime we + 1440) ∧
    (parseTime we < parseTime ws →
       ∀ l ∈ generateTimeSlots ws we, ∀ u : Nat, u % 1440 = parseTime l →
         isWithinWorkHours u ws we = true) := by
  have hs : parseTime ws < 1440 := parseTime_of_valid hws
  have he : parseTime we < 1440 := parseTime_of_valid hwe
  constructor
  · intro l hl
    simp only [generateTimeSlots, if_pos hover, List.mem_map] at hl
    obtain ⟨t, ht, rfl⟩ := hl
    rw [mem_slotTimes] at ht
    obtain ⟨k, rfl, hk⟩ := ht
    rw [parseTime_formatTime (by omega)]
    by_cases hc : (parseTime ws + 30 * k) % 1440 < parseTime ws <;>
      simp only [if_pos, if_neg, hc, if_true, if_false] <;> omega
  · intro hstrict l hl u hu
    simp only [generateTimeSlots, if_pos hover, List.mem_map] at hl
    obtain ⟨t, ht, rfl⟩ := hl
    rw [mem_slotTimes] at ht
    obtain ⟨k, rfl, hk⟩ := ht
    rw [parseTime_formatTime (by omega)] at hu
    simp only [isWithinWorkHours, if_pos hstrict, Bool.or_eq_true, decide_eq_true_eq]
    omega

/-- C6, witness: for the strictly overnight pair 22:00–02:00, the
generated slot `"22:00"` is inside the work window. -/
theorem C6_witness :
    parseTime "02:00" ≤ parseTime "22:00" ∧
    isWithinWorkHours 1320 "22:00" "02:00" = true :=
  ⟨by decide,
    (C6_amended "22:00" "02:00" ⟨22, 0, by decide, by decide, rfl⟩
        ⟨2, 0, by decide, by decide, rfl⟩ (by decide)).2
      (by decide) "22:00" (by decide) 1320 (by decide)⟩

/-- C7: for any slot selectable in the booking dialog, the submitted
`dateTime` lands on the day after the selected booking date exactly when
the slot's time-of-day is numerically below `workStarts` (a past-midnight
slot), and stays on the selected date for any slot at or after
`workStarts`; its time-of-day is always the slot's. -/
theorem C7_daybump (ws we : String) (hws : ValidHHMM ws) (hwe : ValidHHMM we)
    (tableId selectedDate now bookingDate : Nat) (bookings : List Booking) (slot : String)
    (hslot : slot ∈ availableSlots ws we tableId selectedDate now bookings) :
    constructDateTime bookingDate slot ws / 1440 =
      (if parseTime slot < parseTime ws then bookingDate + 1 else bookingDate) ∧
    constructDateTime bookingDate slot ws % 1440 = parseTime slot := by
  obtain ⟨H, M, hH, hM, hwseq⟩ := hws
  obtain ⟨E, F, hE, hF, hweeq⟩ := hwe
  simp only [availableSlots, List.mem_map] at hslot
  obtain ⟨t, ht, rfl⟩ := hslot
  simp only [availableSlotTimes, List.mem_filter] at ht
  have h1 := ht.1
  rw [mem_slotTimes] at h1
  obtain ⟨k, hteq, hk⟩ := h1
  have hsv : parseTime ws = H * 60 + M := by
    rw [hwseq, parseTime_formatTime (by omega)]
    omega
  have hev : parseTime we = E * 60 + F := by
    rw [hweeq, parseTime_formatTime (by omega)]
    omega
  have hge : H * 60 + M ≤ t := by omega
  have ht2880 : t < 2880 := by
    by_cases hov : parseTime we ≤ parseTime ws
    · rw [if_pos hov] at hk
      omega
    · rw [if_neg hov] at hk
      omega
  have hkey : 1440 ≤ t → t % 1440 + 60 ≤ H * 60 + M := by
    intro h1440
    by_cases hov : parseTime we ≤ parseTime ws
    · rw [if_pos hov] at hk
      omega
    · rw [if_neg hov] at hk
      omega
  have hsplit := split_formatTime t ht2880
  have hwsplit : (splitOnChar ':' ws.toList).map digitsToNat = [H, M] := by
    rw [hwseq]
    have h2 := split_formatTime (H * 60 + M) (by omega)
    rw [h2]
    have e1 : (H * 60 + M) / 60 % 24 = H := by omega
    have e2 : (H * 60 + M) % 60 = M := by omega
    rw [e1, e2]
  have hwH : digitsToNat ((splitOnChar ':' ws.toList).getD 0 []) = H :=
    digitsToNat_getD_zero hwsplit
  have hpt : parseTime (formatTime t) = t % 1440 := parseTime_formatTime ht2880
  simp only [constructDateTime, hsplit, hwH, hpt, hsv,
    List.getD_cons_zero, List.getD_cons_succ]
  by_cases hr : t % 1440 < H * 60 + M
  · have h1440 : 1440 ≤ t := by omega
    have hkey2 := hkey h1440
    rw [if_pos ⟨by omega, hr⟩, if_pos hr]
    constructor <;> omega
  · rw [if_neg (fun hc => hr hc.2), if_neg hr]
    constructor <;> omega

/-- C7, witness: the past-midnight slot `"01:00"` of the 22:00–02:00
shift is stored on the day after the selected date 5. -/
theorem C7_witness :
    "01:00" ∈ availableSlots "22:00" "02:00" 1 0 1200 [] ∧
    constructDateTime 5 "01:00" "22:00" / 1440 =
      (if parseTime "01:00" < parseTime "22:00" then 5 + 1 else 5) ∧
    constructDateTime 5 "01:00" "22:00" % 1440 = parseTime "01:00" :=
  ⟨by decide,
    C7_daybump "22:00" "02:00" ⟨22, 0, by decide, by decide, rfl⟩
      ⟨2, 0, by decide, by decide, rfl⟩ 1 0 1200 5 [] "01:00" (by decide)⟩

/-- C8: whenever the requested party size exceeds the table's seats, the
submission handler reports a validation error and leaves the booking set
unchanged — no booking is created. -/
theorem C8_capacity (guestName guestPhone : String) (guestCount tableId seats : Nat)
    (bookingTime : String) (bookingDate : Nat) (workStarts : String)
    (bookings : List Booking) (confirmOk : Bool)
    (h : guestCount > seats) :
    (handleSubmit guestName guestPhone guestCount tableId seats bookingTime bookingDate
        workStarts bookings confirmOk).1.isSome = true ∧
    (handleSubmit guestName guestPhone guestCount tableId seats bookingTime bookingDate
        workStarts bookings confirmOk).2 = bookings := by
  unfold handleSubmit
  split_ifs <;> simp_all

/-- C8, witness: a 5-guest submission against a 4-seat table fails and
creates nothing. -/
theorem C8_witness :
    5 > 4 ∧
    (handleSubmit "Ann" "+7 (999) 123-45-67" 5 1 4 "12:00" 3 "10:00" [] true).1.isSome = true ∧
    (handleSubmit "Ann" "+7 (999) 123-45-67" 5 1 4 "12:00" 3 "10:00" [] true).2 = [] :=
  ⟨by omega, C8_capacity "Ann" "+7 (999) 123-45-67" 5 1 4 "12:00" 3 "10:00" [] true (by omega)⟩

/-- C9: for every creation instant and every `now` at or after it, the
request-queue countdown equals `max 0 (180 - secondsElapsed createdAt)`,
is never negative, and from 180 seconds onward it is zero and renders as
`0:00`. -/
theorem C9_countdown (createdAtMs nowMs : Nat) (h : createdAtMs ≤ nowMs) :
    countdownTimeLeft createdAtMs nowMs
        = max 0 (180 - secondsElapsed createdAtMs nowMs) ∧
    0 ≤ countdownTimeLeft createdAtMs nowMs ∧
    (createdAtMs + 180000 ≤ nowMs →
      countdownTimeLeft createdAtMs nowMs = 0 ∧
      countdownMinutes createdAtMs nowMs = 0 ∧
      countdownSeconds createdAtMs nowMs = 0) := by
  refine ⟨rfl, le_max_left _ _, fun h180 => ?_⟩
  have hz : countdownTimeLeft createdAtMs nowMs = 0 := by
    unfold countdownTimeLeft secondsElapsed
    rw [max_eq_left]
    rw [sub_nonpos, le_div_iff₀ (by norm_num : (0 : ℚ) < 1000)]
    have hc : ((createdAtMs : ℚ)) + 180000 ≤ (nowMs : ℚ) := by
      exact_mod_cast h180
    linarith
  refine ⟨hz, ?_, ?_⟩
  · unfold countdownMinutes
    rw [hz]
    norm_num
  · unfold countdownSeconds
    rw [hz]
    norm_num

/-- C9, witness: 200 seconds after creation the countdown is zero and
renders `0:00`. -/
theorem C9_witness :
    countdownTimeLeft 0 200000 = max 0 (180 - secondsElapsed 0 200000) ∧
    0 ≤ countdownTimeLeft 0 200000 ∧
    (0 + 180000 ≤ 200000 →
      countdownTimeLeft 0 200000 = 0 ∧
      countdownMinutes 0 200000 = 0 ∧
      countdownSeconds 0 200000 = 0) :=
  C9_countdown 0 200000 (by omega)

/-- C10: every label the booking dialog offers is an element of the
30-minute grid `generateTimeSlots workStarts workEnds` of the same
shift window — the conflict resolver only filters that grid and never
emits an off-grid or out-of-window label. -/
theorem C10_subset (ws we : String) (tableId selectedDate now : Nat) (bookings : List Booking) :
    ∀ s ∈ availableSlots ws we tableId selectedDate now bookings,
      s ∈ generateTimeSlots ws we := by
  intro s hs
  simp only [availableSlots, List.mem_map] at hs
  obtain ⟨t, ht, rfl⟩ := hs
  simp only [generateTimeSlots, List.mem_map]
  refine ⟨t, ?_, rfl⟩
  simp only [availableSlotTimes, List.mem_filter] at ht
  have h1 := ht.1
  rw [mem_slotTimes] at h1 ⊢
  obtain ⟨k, rfl, hk⟩ := h1
  exact ⟨k, rfl, by omega⟩

/-- C10, witness: the offered slot `"22:00"` of the 22:00–02:00 shift is
on the shift's 30-minute grid. -/
theorem C10_witness :
    "22:00" ∈ availableSlots "22:00" "02:00" 1 0 1200 [] ∧
    "22:00" ∈ generateTimeSlots "22:00" "02:00" :=
  ⟨by decide, C10_subset "22:00" "02:00" 1 0 1200 [] "22:00" (by decide)⟩
